import Mathlib

/-!
Verification of the HOPE backend pairing core (src/server.js).

The server keeps four in-memory containers:
  * `messageQueue`   — a FIFO array of queued voice messages,
  * `activeUsers`    — a Map from socket id to the joined user's data,
  * `pendingReplies` — a Map from message id to the sender awaiting a reply,
  * `userMessages`   — a Map from message id to the recorded senderId.

JavaScript `Map`s are modelled as association lists with the usual
first-match `get`, in-place-update `set`, and single-entry `delete`
(JS map keys are unique, and `mapSet` preserves that uniqueness).
Timestamps (`Date.now()` values) are modelled as `Int` so that the
`now - timestamp > 60000` comparison has exact JS semantics.
Randomly generated ids (`generateId`) are modelled as explicit inputs.
Each socket/HTTP handler becomes a function from the server state and
the handler's inputs to the new state plus the list of emitted events.
-/

/-- A queued voice message, as pushed by `POST /api/upload-message`. -/
structure Message where
  id : String
  fileName : String
  timestamp : Int
  senderId : String
deriving Repr, DecidableEq

/-- An `activeUsers` entry: the spread user data plus `joinedAt`. -/
structure ActiveUser where
  profile : String
  joinedAt : Int
deriving Repr, DecidableEq

/-- A `pendingReplies` entry: the sender socket id and registration time. -/
structure PendingReplyEntry where
  senderId : String
  timestamp : Int
deriving Repr, DecidableEq

/-- `Map.prototype.get`: the value of the first (unique) matching key. -/
def mapGet {α : Type} : List (String × α) → String → Option α
  | [], _ => none
  | (k', v) :: rest, k => if k' = k then some v else mapGet rest k

/-- `Map.prototype.set`: update the entry in place, or append a new one. -/
def mapSet {α : Type} : List (String × α) → String → α → List (String × α)
  | [], k, v => [(k, v)]
  | (k', v') :: rest, k, v =>
      if k' = k then (k, v) :: rest else (k', v') :: mapSet rest k v

/-- `Map.prototype.delete`: drop the (unique) entry with the given key. -/
def mapDelete {α : Type} : List (String × α) → String → List (String × α)
  | [], _ => []
  | (k', v') :: rest, k => if k' = k then rest else (k', v') :: mapDelete rest k

/-- The whole mutable state of the server process. -/
structure ServerState where
  messageQueue : List Message
  activeUsers : List (String × ActiveUser)
  pendingReplies : List (String × PendingReplyEntry)
  userMessages : List (String × String)
deriving Repr, DecidableEq

/-- Events emitted over the socket layer (`socket.emit`, `io.to(..).emit`,
`io.emit`).  `target` is the socket id for targeted emissions; the
`replyReceivedBroadcast` constructor is the `io.emit` in
`POST /api/upload-reply`, which goes to every connected socket. -/
inductive Event where
  | messageReceived (target messageId fileName : String) (timestamp : Int)
  | messageSent (target messageId : String) (timestamp : Int)
  | replyReceived (target replyId originalMessageId : String) (timestamp : Int)
  | replyReceivedBroadcast (replyId originalMessageId fileName : String)
  | replySent (target : String) (success : Bool)
  | messageSkipped (target : String) (success : Bool)
deriving Repr, DecidableEq

/-- Whether connection `c` (among `connected` sockets) receives a
reply-received payload from event `e`: a broadcast reaches every
connected socket, a targeted emission only the target (and only while
it is connected — delivery to a dead room is a no-op). -/
def deliversReplyReceivedTo (connected : List String) (c : String) : Event → Bool
  | Event.replyReceived target _ _ _ => decide (target = c) && connected.contains c
  | Event.replyReceivedBroadcast _ _ _ => connected.contains c
  | _ => false

/-- Outcome of `POST /api/upload-message`. -/
inductive UploadMessageResult where
  | badRequest (error : String)
  | serverError (error : String)
  | success (messageId : String) (queuePosition : Nat)
deriving Repr, DecidableEq

/-- Outcome of `POST /api/upload-reply`. -/
inductive UploadReplyResult where
  | badRequest (error : String)
  | serverError (error : String)
  | success (replyId : String)
deriving Repr, DecidableEq

/-- `req.body.senderId || "anonymous"`: a missing (or empty, hence falsy)
sender field defaults to the literal string "anonymous". -/
def effectiveSenderId : Option String → String
  | none => "anonymous"
  | some s => if s = "" then "anonymous" else s

/-- `POST /api/upload-message`: reject when no audio file is attached
(400), reject when the blob-storage upload fails (500), and otherwise
push the message onto the queue tail, record the sender in
`userMessages`, and answer `{messageId, queuePosition}`.  The handler
emits no socket events on any path. -/
def uploadMessage (st : ServerState) (hasFile : Bool) (senderIdField : Option String)
    (storageOk : Bool) (messageId : String) (now : Int) :
    ServerState × UploadMessageResult × List Event :=
  if hasFile = false then
    (st, UploadMessageResult.badRequest "No audio file provided", [])
  else
    let fileName := "messages/" ++ messageId ++ ".wav"
    let senderId := effectiveSenderId senderIdField
    if storageOk = false then
      (st, UploadMessageResult.serverError "Failed to upload audio", [])
    else
      let message : Message :=
        { id := messageId, fileName := fileName, timestamp := now, senderId := senderId }
      let newQueue := st.messageQueue ++ [message]
      ({ st with
          messageQueue := newQueue,
          userMessages := mapSet st.userMessages messageId senderId },
       UploadMessageResult.success messageId newQueue.length, [])

/-- `POST /api/upload-reply`: reject on missing file (400) or storage
failure (500); on success `io.emit` a reply-received broadcast.  The
handler never reads or writes `pendingReplies`. -/
def uploadReply (st : ServerState) (hasFile : Bool) (storageOk : Bool)
    (replyId : String) (originalMessageId : String) :
    ServerState × UploadReplyResult × List Event :=
  if hasFile = false then
    (st, UploadReplyResult.badRequest "No audio file provided", [])
  else
    let fileName := "replies/" ++ replyId ++ ".wav"
    if storageOk = false then
      (st, UploadReplyResult.serverError "Failed to upload reply", [])
    else
      (st, UploadReplyResult.success replyId,
       [Event.replyReceivedBroadcast replyId originalMessageId fileName])

/-- The claim-scan test `userMessages.get(message.id) !== socket.id`
from the `join-queue` handler (a missing index entry compares as
`undefined !== socket.id`, which is eligible). -/
def claimEligible (userMessages : List (String × String)) (viewerId : String)
    (m : Message) : Bool :=
  decide (mapGet userMessages m.id ≠ some viewerId)

/-- The `join-queue` claim loop: scan head to tail for the first eligible
entry and splice it out; the remaining queue keeps its order. -/
def claimScan (userMessages : List (String × String)) (viewerId : String) :
    List Message → Option Message × List Message
  | [] => (none, [])
  | m :: rest =>
      if claimEligible userMessages viewerId m then
        (some m, rest)
      else
        ((claimScan userMessages viewerId rest).1,
         m :: (claimScan userMessages viewerId rest).2)

/-- The `join-queue` socket handler: register the user in `activeUsers`,
scan the queue for the first message not authored by this socket, and
when one is found remove it (queue and `userMessages` index) and emit a
targeted message-received event. -/
def joinQueue (st : ServerState) (viewerId : String) (profile : String) (now : Int) :
    ServerState × List Event :=
  match (claimScan st.userMessages viewerId st.messageQueue).1 with
  | none =>
      ({ st with
          activeUsers := mapSet st.activeUsers viewerId
            { profile := profile, joinedAt := now } },
       [])
  | some m =>
      ({ st with
          activeUsers := mapSet st.activeUsers viewerId
            { profile := profile, joinedAt := now },
          messageQueue := (claimScan st.userMessages viewerId st.messageQueue).2,
          userMessages := mapDelete st.userMessages m.id },
       [Event.messageReceived viewerId m.id m.fileName m.timestamp])

/-- The `send-message` socket handler: register a pending-reply
correlation for a fresh message id and acknowledge the caller. -/
def sendMessage (st : ServerState) (callerId : String) (messageId : String) (now : Int) :
    ServerState × List Event :=
  ({ st with
      pendingReplies := mapSet st.pendingReplies messageId
        { senderId := callerId, timestamp := now } },
   [Event.messageSent callerId messageId now])

/-- The `send-reply` socket handler: look up the original sender in
`pendingReplies`; when present, emit reply-received to that socket only
and delete the correlation entry; always acknowledge the replier with
reply-sent success. -/
def sendReply (st : ServerState) (replierId : String) (originalMessageId : String)
    (replyId : String) (now : Int) : ServerState × List Event :=
  match mapGet st.pendingReplies originalMessageId with
  | some originalSender =>
      ({ st with pendingReplies := mapDelete st.pendingReplies originalMessageId },
       [Event.replyReceived originalSender.senderId replyId originalMessageId now,
        Event.replySent replierId true])
  | none =>
      (st, [Event.replySent replierId true])

/-- The `skip-message` socket handler: acknowledge only, no state change. -/
def skipMessage (st : ServerState) (callerId : String) : ServerState × List Event :=
  (st, [Event.messageSkipped callerId true])

/-- The `disconnect` socket handler: drop the presence entry only. -/
def disconnect (st : ServerState) (connectionId : String) : ServerState :=
  { st with activeUsers := mapDelete st.activeUsers connectionId }

/-- The TTL test `now - timestamp > 60000` used by the cleanup sweep. -/
def isExpired (now : Int) (timestamp : Int) : Bool :=
  decide (now - timestamp > 60000)

/-- `cleanupExpiredMessages`: splice every expired message out of the
queue (the backwards splice loop is a filter), delete its `userMessages`
index entry, and delete every expired `pendingReplies` entry. -/
def cleanupExpiredMessages (st : ServerState) (now : Int) : ServerState :=
  let expiredIds :=
    (st.messageQueue.filter (fun m => isExpired now m.timestamp)).map Message.id
  { st with
      messageQueue := st.messageQueue.filter (fun m => !isExpired now m.timestamp),
      userMessages := st.userMessages.filter (fun p => !(decide (p.1 ∈ expiredIds))),
      pendingReplies :=
        st.pendingReplies.filter (fun p => !(isExpired now p.2.timestamp)) }

/-! ### Association-list lemmas -/

theorem mapGet_mapSet_self {α : Type} (m : List (String × α)) (k : String) (v : α) :
    mapGet (mapSet m k v) k = some v := by
  induction m with
  | nil => simp [mapSet, mapGet]
  | cons p rest ih =>
      obtain ⟨k', v'⟩ := p
      by_cases h : k' = k
      · simp [mapSet, mapGet, h]
      · simp [mapSet, mapGet, h, ih]

theorem mapGet_mapDelete_ne {α : Type} (m : List (String × α)) (k k' : String)
    (h : k' ≠ k) : mapGet (mapDelete m k) k' = mapGet m k' := by
  induction m with
  | nil => simp [mapDelete]
  | cons p rest ih =>
      obtain ⟨k'', v''⟩ := p
      by_cases hk : k'' = k
      · subst hk
        have : ¬ k'' = k' := fun hc => h (hc ▸ rfl)
        simp [mapDelete, mapGet, this]
      · by_cases hk' : k'' = k'
        · subst hk'
          simp [mapDelete, mapGet, hk]
        · simp [mapDelete, mapGet, hk, hk', ih]

theorem mapGet_eq_none_of_not_mem_keys {α : Type} (m : List (String × α)) (k : String)
    (h : k ∉ m.map Prod.fst) : mapGet m k = none := by
  induction m with
  | nil => rfl
  | cons p rest ih =>
      obtain ⟨k', v'⟩ := p
      simp only [List.map_cons, List.mem_cons] at h
      push_neg at h
      have hne : k' ≠ k := fun hc => h.1 hc.symm
      simp [mapGet, hne, ih h.2]

theorem mapGet_mapDelete_self {α : Type} (m : List (String × α)) (k : String)
    (hnd : (m.map Prod.fst).Nodup) : mapGet (mapDelete m k) k = none := by
  induction m with
  | nil => rfl
  | cons p rest ih =>
      obtain ⟨k', v'⟩ := p
      simp only [List.map_cons, List.nodup_cons] at hnd
      by_cases hk : k' = k
      · subst hk
        exact (by simpa [mapDelete] using mapGet_eq_none_of_not_mem_keys rest k' hnd.1)
      · simp [mapDelete, mapGet, hk, ih hnd.2]

theorem mapGet_mem {α : Type} (m : List (String × α)) (k : String) (v : α)
    (h : mapGet m k = some v) : (k, v) ∈ m := by
  induction m with
  | nil => simp [mapGet] at h
  | cons p rest ih =>
      obtain ⟨k', v'⟩ := p
      by_cases hk : k' = k
      · subst hk
        simp [mapGet] at h
        simp [h]
      · simp [mapGet, hk] at h
        exact List.mem_cons_of_mem _ (ih h)

theorem mapGet_filter_eq_none {α : Type} (m : List (String × α)) (k : String)
    (f : String × α → Bool) (h : ∀ p ∈ m, p.1 = k → f p = false) :
    mapGet (m.filter f) k = none := by
  induction m with
  | nil => rfl
  | cons p rest ih =>
      obtain ⟨k', v'⟩ := p
      have ihr := ih (fun q hq hqk => h q (List.mem_cons_of_mem _ hq) hqk)
      by_cases hk : k' = k
      · have : f (k', v') = false := h (k', v') (List.mem_cons_self _ _) hk
        simp [List.filter_cons, this, ihr]
      · by_cases hf : f (k', v')
        · simp [List.filter_cons, hf, mapGet, hk, ihr]
        · simp [List.filter_cons, hf, ihr]

theorem mapGet_filter_eq {α : Type} (m : List (String × α)) (k : String)
    (f : String × α → Bool) (h : ∀ p ∈ m, p.1 = k → f p = true) :
    mapGet (m.filter f) k = mapGet m k := by
  induction m with
  | nil => rfl
  | cons p rest ih =>
      obtain ⟨k', v'⟩ := p
      have ihr := ih (fun q hq hqk => h q (List.mem_cons_of_mem _ hq) hqk)
      by_cases hk : k' = k
      · subst hk
        have : f (k', v') = true := h (k', v') (List.mem_cons_self _ _) rfl
        simp [List.filter_cons, this, mapGet]
      · by_cases hf : f (k', v')
        · simp [List.filter_cons, hf, mapGet, hk, ihr]
        · simp [List.filter_cons, hf, mapGet, hk, ihr]

/-! ### Claim-scan lemmas

The index is consistent when every queued message's recorded sender in
`userMessages` is the `senderId` stored on the message itself; the
`join-queue` scan predicate then coincides with "authored by someone
other than the viewer". -/

theorem claimEligible_eq_of_get (um : List (String × String)) (viewerId : String)
    (m : Message) (hget : mapGet um m.id = some m.senderId) :
    claimEligible um viewerId m = decide (m.senderId ≠ viewerId) := by
  simp [claimEligible, hget]

theorem claimScan_fst (um : List (String × String)) (viewerId : String)
    (q : List Message) (wf : ∀ m ∈ q, mapGet um m.id = some m.senderId) :
    (claimScan um viewerId q).1 = q.find? (fun m => decide (m.senderId ≠ viewerId)) := by
  induction q with
  | nil => simp [claimScan]
  | cons m rest ih =>
      have hm := claimEligible_eq_of_get um viewerId m (wf m (List.mem_cons_self _ _))
      have ihr := ih (fun x hx => wf x (List.mem_cons_of_mem _ hx))
      by_cases hs : m.senderId = viewerId
      · simp [claimScan, hm, hs, List.find?, ihr]
      · simp [claimScan, hm, hs, List.find?]

theorem claimScan_snd (um : List (String × String)) (viewerId : String)
    (q : List Message) (wf : ∀ m ∈ q, mapGet um m.id = some m.senderId) :
    (claimScan um viewerId q).2 = q.eraseP (fun m => decide (m.senderId ≠ viewerId)) := by
  induction q with
  | nil => simp [claimScan]
  | cons m rest ih =>
      have hm := claimEligible_eq_of_get um viewerId m (wf m (List.mem_cons_self _ _))
      have ihr := ih (fun x hx => wf x (List.mem_cons_of_mem _ hx))
      by_cases hs : m.senderId = viewerId
      · simp [claimScan, hm, hs, List.eraseP_cons, ihr]
      · simp [claimScan, hm, hs, List.eraseP_cons]

/-! ### Reply-resolution helper lemmas -/

theorem sendReply_none (st : ServerState) (replierId mid rid : String) (now : Int)
    (h : mapGet st.pendingReplies mid = none) :
    sendReply st replierId mid rid now = (st, [Event.replySent replierId true]) := by
  simp [sendReply, h]

theorem sendReply_some (st : ServerState) (replierId mid rid : String) (now : Int)
    (entry : PendingReplyEntry) (h : mapGet st.pendingReplies mid = some entry) :
    sendReply st replierId mid rid now
      = ({ st with pendingReplies := mapDelete st.pendingReplies mid },
         [Event.replyReceived entry.senderId rid mid now,
          Event.replySent replierId true]) := by
  simp [sendReply, h]

/-! ### Concrete states used by the witnesses and counterexamples -/

/-- One queued message authored by "A", index consistent. -/
def queueStateA : ServerState :=
  { messageQueue := [{ id := "m1", fileName := "messages/m1.wav", timestamp := 0, senderId := "A" }],
    activeUsers := [],
    pendingReplies := [],
    userMessages := [("m1", "A")] }

/-- One queued message authored by "B" itself — the self-pairing case. -/
def queueStateSelf : ServerState :=
  { messageQueue := [{ id := "m2", fileName := "messages/m2.wav", timestamp := 0, senderId := "B" }],
    activeUsers := [],
    pendingReplies := [],
    userMessages := [("m2", "B")] }

/-- A registered reply correlation: message "m1" awaits a reply to socket "A". -/
def replyStateA : ServerState :=
  { messageQueue := [],
    activeUsers := [("A", { profile := "", joinedAt := 0 }),
                    ("B", { profile := "", joinedAt := 0 })],
    pendingReplies := [("m1", { senderId := "A", timestamp := 0 })],
    userMessages := [] }

/-- C1: for every queue state whose sender index is consistent and every
viewer emitting join-queue, the message delivered via message-received
(if any) is the first queue entry whose recorded senderId differs from
the viewer, and it is removed from the queue; if no entry qualifies
(empty queue or all entries authored by the viewer), nothing is claimed
and no message-received event is emitted — in particular the result is
never a message the viewer authored. -/
theorem joinQueue_no_self_pairing (st : ServerState) (viewerId profile : String) (now : Int)
    (wf : ∀ m ∈ st.messageQueue, mapGet st.userMessages m.id = some m.senderId) :
    (∀ m : Message,
        st.messageQueue.find? (fun x => decide (x.senderId ≠ viewerId)) = some m →
        (joinQueue st viewerId profile now).2
            = [Event.messageReceived viewerId m.id m.fileName m.timestamp] ∧
        m.senderId ≠ viewerId ∧
        (joinQueue st viewerId profile now).1.messageQueue
            = st.messageQueue.eraseP (fun x => decide (x.senderId ≠ viewerId))) ∧
    (st.messageQueue.find? (fun x => decide (x.senderId ≠ viewerId)) = none →
        (joinQueue st viewerId profile now).2 = [] ∧
        (joinQueue st viewerId profile now).1.messageQueue = st.messageQueue) := by
  have hfst := claimScan_fst st.userMessages viewerId st.messageQueue wf
  have hsnd := claimScan_snd st.userMessages viewerId st.messageQueue wf
  constructor
  · intro m hm
    have h1 : (claimScan st.userMessages viewerId st.messageQueue).1 = some m := by
      rw [hfst, hm]
    refine ⟨?_, ?_, ?_⟩
    · simp [joinQueue, h1]
    · simpa using List.find?_some hm
    · simp [joinQueue, h1, hsnd]
  · intro hm
    have h1 : (claimScan st.userMessages viewerId st.messageQueue).1 = none := by
      rw [hfst, hm]
    constructor <;> simp [joinQueue, h1]

/-- Witness for C1: viewer "B" claims the message authored by "A", and a
queue holding only "B"'s own message yields no claim and no event. -/
theorem joinQueue_no_self_pairing_witness :
    ((joinQueue queueStateA "B" "p" 5).2
        = [Event.messageReceived "B" "m1" "messages/m1.wav" 0]) ∧
    ((joinQueue queueStateSelf "B" "p" 5).2 = [] ∧
        (joinQueue queueStateSelf "B" "p" 5).1.messageQueue
          = queueStateSelf.messageQueue) := by
  refine ⟨?_, ?_⟩
  · exact ((joinQueue_no_self_pairing queueStateA "B" "p" 5 (by decide)).1
      { id := "m1", fileName := "messages/m1.wav", timestamp := 0, senderId := "A" }
      (by decide)).1
  · exact (joinQueue_no_self_pairing queueStateSelf "B" "p" 5 (by decide)).2 (by decide)

/-- C2 counterexample: with a correlation registered for "m1" (original
sender "A"), a successful HTTP reply upload referencing "m1" delivers a
reply-received payload to connection "B" ≠ "A" — a broadcast, not a
targeted emission — and the correlation entry for "m1" is not removed. -/
theorem uploadReply_broadcast_counterexample :
    ((uploadReply replyStateA true true "r1" "m1").2.2.any
        (fun e => deliversReplyReceivedTo ["A", "B"] "B" e) = true) ∧
    mapGet (uploadReply replyStateA true true "r1" "m1").1.pendingReplies "m1"
        = some { senderId := "A", timestamp := 0 } := by
  decide

/-- C2 (amended): the targeted-delivery contract holds for the send-reply
live event only: when the correlator holds an entry for the referenced
id, reply-received is emitted to the original sender's connection and to
no other connection, and the correlation entry is removed.  (The HTTP
reply-upload endpoint instead broadcasts reply-received to every
connected socket and neither consults nor removes the correlator.) -/
theorem sendReply_targeted_only (st : ServerState) (replierId mid rid : String)
    (now : Int) (entry : PendingReplyEntry)
    (hnd : (st.pendingReplies.map Prod.fst).Nodup)
    (hget : mapGet st.pendingReplies mid = some entry) :
    (sendReply st replierId mid rid now).2
        = [Event.replyReceived entry.senderId rid mid now,
           Event.replySent replierId true] ∧
    (∀ connected : List String, ∀ c : String, c ≠ entry.senderId →
        ∀ e ∈ (sendReply st replierId mid rid now).2,
        deliversReplyReceivedTo connected c e = false) ∧
    mapGet (sendReply st replierId mid rid now).1.pendingReplies mid = none := by
  have hs := sendReply_some st replierId mid rid now entry hget
  refine ⟨?_, ?_, ?_⟩
  · rw [hs]
  · intro connected c hc e he
    rw [hs] at he
    simp only [List.mem_cons, List.not_mem_nil, or_false] at he
    rcases he with rfl | rfl
    · simp [deliversReplyReceivedTo, Ne.symm hc]
    · rfl
  · rw [hs]
    exact mapGet_mapDelete_self st.pendingReplies mid hnd

/-- Witness for the amended C2: resolving "m1" targets "A" alone ("B" does
not receive it) and removes the correlation entry. -/
theorem sendReply_targeted_only_witness :
    ((sendReply replyStateA "B" "m1" "r1" 7).2
        = [Event.replyReceived "A" "r1" "m1" 7, Event.replySent "B" true]) ∧
    deliversReplyReceivedTo ["A", "B"] "B" (Event.replyReceived "A" "r1" "m1" 7) = false ∧
    mapGet (sendReply replyStateA "B" "m1" "r1" 7).1.pendingReplies "m1" = none := by
  have h := sendReply_targeted_only replyStateA "B" "m1" "r1" 7
      { senderId := "A", timestamp := 0 } (by decide) (by decide)
  refine ⟨h.1, ?_, h.2.2⟩
  exact h.2.1 ["A", "B"] "B" (by decide) (Event.replyReceived "A" "r1" "m1" 7)
    (by rw [h.1]; exact List.mem_cons_self _ _)

/-- C3: resolving a messageId removes the pendingReplies entry, so after a
successful resolve, a second send-reply for the same id (with no
re-registration in between) finds nothing: it changes no state, emits
only the reply-sent acknowledgement, and delivers reply-received to no
connection. -/
theorem sendReply_at_most_once (st : ServerState) (r1 r2 mid rid1 rid2 : String)
    (now1 now2 : Int) (entry : PendingReplyEntry)
    (hnd : (st.pendingReplies.map Prod.fst).Nodup)
    (hget : mapGet st.pendingReplies mid = some entry) :
    sendReply (sendReply st r1 mid rid1 now1).1 r2 mid rid2 now2
        = ((sendReply st r1 mid rid1 now1).1, [Event.replySent r2 true]) ∧
    (∀ connected : List String, ∀ c : String,
        ∀ e ∈ (sendReply (sendReply st r1 mid rid1 now1).1 r2 mid rid2 now2).2,
        deliversReplyReceivedTo connected c e = false) := by
  have h1 : (sendReply st r1 mid rid1 now1).1.pendingReplies
      = mapDelete st.pendingReplies mid := by
    rw [sendReply_some st r1 mid rid1 now1 entry hget]
  have h2 : mapGet (sendReply st r1 mid rid1 now1).1.pendingReplies mid = none := by
    rw [h1]
    exact mapGet_mapDelete_self st.pendingReplies mid hnd
  have hs := sendReply_none (sendReply st r1 mid rid1 now1).1 r2 mid rid2 now2 h2
  refine ⟨hs, ?_⟩
  intro connected c e he
  rw [hs] at he
  simp only [List.mem_cons, List.not_mem_nil, or_false] at he
  subst he
  rfl

/-- Witness for C3: after "B" resolves "m1", a second resolve of "m1" by
"C" yields only the acknowledgement. -/
theorem sendReply_at_most_once_witness :
    sendReply (sendReply replyStateA "B" "m1" "r1" 7).1 "C" "m1" "r2" 9
        = ((sendReply replyStateA "B" "m1" "r1" 7).1, [Event.replySent "C" true]) := by
  exact (sendReply_at_most_once replyStateA "B" "C" "m1" "r1" "r2" 7 9
    { senderId := "A", timestamp := 0 } (by decide) (by decide)).1

/-- C6: a send-reply whose originalMessageId has no registered correlation
changes nothing: the state is returned untouched, the only emission is
the reply-sent success acknowledgement to the replier, and no connection
receives a reply-received payload. -/
theorem sendReply_dangling_harmless (st : ServerState) (replierId mid rid : String)
    (now : Int) (h : mapGet st.pendingReplies mid = none) :
    sendReply st replierId mid rid now = (st, [Event.replySent replierId true]) ∧
    (∀ connected : List String, ∀ c : String,
        ∀ e ∈ (sendReply st replierId mid rid now).2,
        deliversReplyReceivedTo connected c e = false) := by
  have hs := sendReply_none st replierId mid rid now h
  refine ⟨hs, ?_⟩
  intro connected c e he
  rw [hs] at he
  simp only [List.mem_cons, List.not_mem_nil, or_false] at he
  subst he
  rfl

/-- Witness for C6: a dangling reply against a state with an unrelated
correlation ("m1") leaves the state intact and only acknowledges. -/
theorem sendReply_dangling_harmless_witness :
    sendReply replyStateA "B" "m9" "r1" 7 = (replyStateA, [Event.replySent "B" true]) := by
  exact (sendReply_dangling_harmless replyStateA "B" "m9" "r1" 7 (by decide)).1

/-- Step lemma: when the queue head is a consistent entry authored by
someone other than the viewer, join-queue claims exactly that head. -/
theorem joinQueue_claims_head (st : ServerState) (m : Message) (rest : List Message)
    (viewerId profile : String) (now : Int)
    (hq : st.messageQueue = m :: rest)
    (hget : mapGet st.userMessages m.id = some m.senderId)
    (hs : m.senderId ≠ viewerId) :
    (joinQueue st viewerId profile now).2
        = [Event.messageReceived viewerId m.id m.fileName m.timestamp] ∧
    (joinQueue st viewerId profile now).1.messageQueue = rest ∧
    (joinQueue st viewerId profile now).1.userMessages
        = mapDelete st.userMessages m.id := by
  have he : claimEligible st.userMessages viewerId m = true := by
    simp [claimEligible, hget, hs]
  have h1 : claimScan st.userMessages viewerId st.messageQueue = (some m, rest) := by
    rw [hq]
    simp [claimScan, he]
  refine ⟨?_, ?_, ?_⟩ <;> simp [joinQueue, h1]

/-- C4: with the queue holding m1, m2, m3 in order (distinct ids, index
consistent) and every sender different from viewer V, three successive
join-queue claims on behalf of V deliver m1, then m2, then m3 — the
oldest eligible message is always claimed first. -/
theorem fifo_fairness (st : ServerState) (m1 m2 m3 : Message)
    (viewerId profile : String) (now1 now2 now3 : Int)
    (hq : st.messageQueue = [m1, m2, m3])
    (wf : ∀ m ∈ st.messageQueue, mapGet st.userMessages m.id = some m.senderId)
    (hid21 : m2.id ≠ m1.id) (hid31 : m3.id ≠ m1.id) (hid32 : m3.id ≠ m2.id)
    (h1 : m1.senderId ≠ viewerId) (h2 : m2.senderId ≠ viewerId)
    (h3 : m3.senderId ≠ viewerId) :
    (joinQueue st viewerId profile now1).2
        = [Event.messageReceived viewerId m1.id m1.fileName m1.timestamp] ∧
    (joinQueue (joinQueue st viewerId profile now1).1 viewerId profile now2).2
        = [Event.messageReceived viewerId m2.id m2.fileName m2.timestamp] ∧
    (joinQueue (joinQueue (joinQueue st viewerId profile now1).1 viewerId profile now2).1
          viewerId profile now3).2
        = [Event.messageReceived viewerId m3.id m3.fileName m3.timestamp] := by
  have g1 : mapGet st.userMessages m1.id = some m1.senderId := wf m1 (by simp [hq])
  have g2 : mapGet st.userMessages m2.id = some m2.senderId := wf m2 (by simp [hq])
  have g3 : mapGet st.userMessages m3.id = some m3.senderId := wf m3 (by simp [hq])
  have s1 := joinQueue_claims_head st m1 [m2, m3] viewerId profile now1 hq g1 h1
  have g2' : mapGet (joinQueue st viewerId profile now1).1.userMessages m2.id
      = some m2.senderId := by
    rw [s1.2.2, mapGet_mapDelete_ne _ _ _ hid21]
    exact g2
  have s2 := joinQueue_claims_head (joinQueue st viewerId profile now1).1 m2 [m3]
      viewerId profile now2 s1.2.1 g2' h2
  have g3' : mapGet
      (joinQueue (joinQueue st viewerId profile now1).1 viewerId profile now2).1.userMessages
      m3.id = some m3.senderId := by
    rw [s2.2.2, s1.2.2, mapGet_mapDelete_ne _ _ _ hid32, mapGet_mapDelete_ne _ _ _ hid31]
    exact g3
  have s3 := joinQueue_claims_head
      (joinQueue (joinQueue st viewerId profile now1).1 viewerId profile now2).1 m3 []
      viewerId profile now3 s2.2.1 g3' h3
  exact ⟨s1.1, s2.1, s3.1⟩

/-- Three messages from three distinct senders, queued in order. -/
def fifoState : ServerState :=
  { messageQueue :=
      [{ id := "m1", fileName := "messages/m1.wav", timestamp := 0, senderId := "A" },
       { id := "m2", fileName := "messages/m2.wav", timestamp := 1, senderId := "B" },
       { id := "m3", fileName := "messages/m3.wav", timestamp := 2, senderId := "C" }],
    activeUsers := [],
    pendingReplies := [],
    userMessages := [("m1", "A"), ("m2", "B"), ("m3", "C")] }

/-- Witness for C4: viewer "Z" claims m1, then m2, then m3. -/
theorem fifo_fairness_witness :
    (joinQueue fifoState "Z" "p" 10).2
        = [Event.messageReceived "Z" "m1" "messages/m1.wav" 0] ∧
    (joinQueue (joinQueue fifoState "Z" "p" 10).1 "Z" "p" 11).2
        = [Event.messageReceived "Z" "m2" "messages/m2.wav" 1] ∧
    (joinQueue (joinQueue (joinQueue fifoState "Z" "p" 10).1 "Z" "p" 11).1 "Z" "p" 12).2
        = [Event.messageReceived "Z" "m3" "messages/m3.wav" 2] := by
  exact fifo_fairness fifoState
    { id := "m1", fileName := "messages/m1.wav", timestamp := 0, senderId := "A" }
    { id := "m2", fileName := "messages/m2.wav", timestamp := 1, senderId := "B" }
    { id := "m3", fileName := "messages/m3.wav", timestamp := 2, senderId := "C" }
    "Z" "p" 10 11 12 rfl (by decide) (by decide) (by decide) (by decide)
    (by decide) (by decide) (by decide)

/-- C5: the cleanup sweep at time `now` removes a queued message with
timestamp `t` from both the queue and the sender index exactly when
`now - t > 60000`, and removes a pendingReplies entry under exactly the
same 60000 threshold; surviving entries are untouched. -/
theorem cleanup_ttl_boundary (st : ServerState) (now : Int)
    (hndq : (st.messageQueue.map Message.id).Nodup)
    (hndr : (st.pendingReplies.map Prod.fst).Nodup) :
    (∀ m ∈ st.messageQueue,
        (isExpired now m.timestamp = true →
            m ∉ (cleanupExpiredMessages st now).messageQueue ∧
            mapGet (cleanupExpiredMessages st now).userMessages m.id = none) ∧
        (isExpired now m.timestamp = false →
            m ∈ (cleanupExpiredMessages st now).messageQueue ∧
            mapGet (cleanupExpiredMessages st now).userMessages m.id
              = mapGet st.userMessages m.id)) ∧
    (∀ (k : String) (d : PendingReplyEntry),
        mapGet st.pendingReplies k = some d →
        (isExpired now d.timestamp = true →
            mapGet (cleanupExpiredMessages st now).pendingReplies k = none) ∧
        (isExpired now d.timestamp = false →
            mapGet (cleanupExpiredMessages st now).pendingReplies k = some d)) := by
  constructor
  · intro m hm
    constructor
    · intro hexp
      constructor
      · intro hmem
        have := (List.mem_filter.mp hmem).2
        simp [hexp] at this
      · apply mapGet_filter_eq_none
        intro p hp hpk
        have hmid : m.id ∈
            ((st.messageQueue.filter (fun x => isExpired now x.timestamp)).map Message.id) :=
          List.mem_map_of_mem Message.id (List.mem_filter.mpr ⟨hm, hexp⟩)
        simp [hpk, hmid]
    · intro hexp
      constructor
      · exact List.mem_filter.mpr ⟨hm, by simp [hexp]⟩
      · apply mapGet_filter_eq
        intro p hp hpk
        have hnotin : m.id ∉
            ((st.messageQueue.filter (fun x => isExpired now x.timestamp)).map Message.id) := by
          intro hmem
          obtain ⟨m', hm', hid⟩ := List.mem_map.mp hmem
          have hm'q := (List.mem_filter.mp hm').1
          have hm'exp := (List.mem_filter.mp hm').2
          have : m' = m := List.inj_on_of_nodup_map hndq hm'q hm hid
          rw [this] at hm'exp
          rw [hexp] at hm'exp
          exact Bool.false_ne_true hm'exp
        simp [hpk, hnotin]
  · intro k d hget
    have hkd : (k, d) ∈ st.pendingReplies := mapGet_mem st.pendingReplies k d hget
    constructor
    · intro hexp
      apply mapGet_filter_eq_none
      intro p hp hpk
      have hpkd : p = (k, d) := by
        apply List.inj_on_of_nodup_map hndr hp hkd
        simpa using hpk
      rw [hpkd]
      simp [hexp]
    · intro hexp
      have hall : ∀ p ∈ st.pendingReplies, p.1 = k →
          (fun p : String × PendingReplyEntry => !(isExpired now p.2.timestamp)) p = true := by
        intro p hp hpk
        have hpkd : p = (k, d) := by
          apply List.inj_on_of_nodup_map hndr hp hkd
          simpa using hpk
        rw [hpkd]
        simp [hexp]
      calc mapGet (cleanupExpiredMessages st now).pendingReplies k
          = mapGet (st.pendingReplies.filter
              (fun p => !(isExpired now p.2.timestamp))) k := rfl
        _ = mapGet st.pendingReplies k := mapGet_filter_eq _ _ _ hall
        _ = some d := hget

/-- One unclaimed message and one pending reply, both created at t = 0. -/
def ttlState : ServerState :=
  { messageQueue :=
      [{ id := "m1", fileName := "messages/m1.wav", timestamp := 0, senderId := "A" }],
    activeUsers := [],
    pendingReplies := [("m1", { senderId := "A", timestamp := 0 })],
    userMessages := [("m1", "A")] }

/-- Witness for C5: the t = 0 message (and the t = 0 correlation) are
present after a sweep at 59000 and absent after a sweep at 61000. -/
theorem cleanup_ttl_boundary_witness :
    ({ id := "m1", fileName := "messages/m1.wav", timestamp := 0, senderId := "A" } ∈
        (cleanupExpiredMessages ttlState 59000).messageQueue ∧
      mapGet (cleanupExpiredMessages ttlState 59000).userMessages "m1" = some "A" ∧
      mapGet (cleanupExpiredMessages ttlState 59000).pendingReplies "m1"
        = some { senderId := "A", timestamp := 0 }) ∧
    (({ id := "m1", fileName := "messages/m1.wav", timestamp := 0, senderId := "A" } ∉
        (cleanupExpiredMessages ttlState 61000).messageQueue) ∧
      mapGet (cleanupExpiredMessages ttlState 61000).userMessages "m1" = none ∧
      mapGet (cleanupExpiredMessages ttlState 61000).pendingReplies "m1" = none) := by
  have h59 := cleanup_ttl_boundary ttlState 59000 (by decide) (by decide)
  have h61 := cleanup_ttl_boundary ttlState 61000 (by decide) (by decide)
  have hm : ({ id := "m1", fileName := "messages/m1.wav", timestamp := 0, senderId := "A" }
      : Message) ∈ ttlState.messageQueue := by decide
  have q59 := (h59.1 _ hm).2 (by decide)
  have r59 := (h59.2 "m1" { senderId := "A", timestamp := 0 } (by decide)).2 (by decide)
  have q61 := (h61.1 _ hm).1 (by decide)
  have r61 := (h61.2 "m1" { senderId := "A", timestamp := 0 } (by decide)).1 (by decide)
  exact ⟨⟨q59.1, by rw [q59.2]; decide, r59⟩, ⟨q61.1, q61.2, r61⟩⟩

/-- C7 counterexample: a successful upload that takes the pending queue
from 1 to 2 unclaimed items emits no live event at all — in particular
no message-paired pairing broadcast reaches any connection. -/
theorem uploadMessage_no_pairing_broadcast :
    ((uploadMessage queueStateA true (some "B") true "m2" 1).1.messageQueue.length = 2) ∧
    (uploadMessage queueStateA true (some "B") true "m2" 1).2.2 = [] := by
  decide

/-- C7 (amended): a message submission never emits any live event —
there is no pairing-threshold broadcast at any queue length; an enqueued
message is delivered only later, through the targeted message-received
emission of a join-queue claim. -/
theorem uploadMessage_emits_no_events (st : ServerState) (hasFile : Bool)
    (senderIdField : Option String) (storageOk : Bool) (messageId : String)
    (now : Int) :
    (uploadMessage st hasFile senderIdField storageOk messageId now).2.2 = [] := by
  cases hasFile <;> cases storageOk <;> rfl

/-- C8: handling a disconnect for connection C removes C's presence entry
from activeUsers and changes nothing else — the message queue, the
senderId index, and all pending reply correlations are exactly as
before, and every other presence entry is untouched. -/
theorem disconnect_frame_condition (st : ServerState) (c : String)
    (hnd : (st.activeUsers.map Prod.fst).Nodup) :
    (disconnect st c).messageQueue = st.messageQueue ∧
    (disconnect st c).userMessages = st.userMessages ∧
    (disconnect st c).pendingReplies = st.pendingReplies ∧
    mapGet (disconnect st c).activeUsers c = none ∧
    (∀ c' : String, c' ≠ c →
        mapGet (disconnect st c).activeUsers c' = mapGet st.activeUsers c') := by
  refine ⟨rfl, rfl, rfl, ?_, ?_⟩
  · exact mapGet_mapDelete_self st.activeUsers c hnd
  · intro c' hc'
    exact mapGet_mapDelete_ne st.activeUsers c c' hc'

/-- Witness for C8: disconnecting "A" clears only "A"'s presence entry;
"B" stays present and the pending correlation registered by "A" stays. -/
theorem disconnect_frame_condition_witness :
    mapGet (disconnect replyStateA "A").activeUsers "A" = none ∧
    mapGet (disconnect replyStateA "A").activeUsers "B"
        = some { profile := "", joinedAt := 0 } ∧
    (disconnect replyStateA "A").pendingReplies = replyStateA.pendingReplies := by
  have h := disconnect_frame_condition replyStateA "A" (by decide)
  refine ⟨h.2.2.2.1, ?_, h.2.2.1⟩
  rw [h.2.2.2.2 "B" (by decide)]
  decide

/-- C9: when the audio payload is missing the upload returns the 400
validation error, when blob storage fails it returns the 500 server
error, and in both cases the state (queue and sender index) is exactly
unchanged; a message is appended to the queue if and only if the
operation returns the success result carrying the messageId and the new
queue position. -/
theorem uploadMessage_error_atomicity (st : ServerState) (hasFile : Bool)
    (senderIdField : Option String) (storageOk : Bool) (messageId : String)
    (now : Int) :
    (hasFile = false →
        uploadMessage st hasFile senderIdField storageOk messageId now
          = (st, UploadMessageResult.badRequest "No audio file provided", [])) ∧
    (hasFile = true → storageOk = false →
        uploadMessage st hasFile senderIdField storageOk messageId now
          = (st, UploadMessageResult.serverError "Failed to upload audio", [])) ∧
    ((uploadMessage st hasFile senderIdField storageOk messageId now).1.messageQueue
          = st.messageQueue ++
            [{ id := messageId, fileName := "messages/" ++ messageId ++ ".wav",
               timestamp := now, senderId := effectiveSenderId senderIdField }]
      ↔ (uploadMessage st hasFile senderIdField storageOk messageId now).2.1
          = UploadMessageResult.success messageId (st.messageQueue.length + 1)) := by
  cases hasFile <;> cases storageOk <;>
    simp [uploadMessage]

/-- Witness for C9: the three branches at a concrete state — 400 with no
state change, 500 with no state change, success appending the message. -/
theorem uploadMessage_error_atomicity_witness :
    uploadMessage queueStateA false none false "m2" 1
        = (queueStateA, UploadMessageResult.badRequest "No audio file provided", []) ∧
    uploadMessage queueStateA true none false "m2" 1
        = (queueStateA, UploadMessageResult.serverError "Failed to upload audio", []) ∧
    (uploadMessage queueStateA true (some "B") true "m2" 1).2.1
        = UploadMessageResult.success "m2" 2 := by
  refine ⟨(uploadMessage_error_atomicity queueStateA false none false "m2" 1).1 rfl,
    (uploadMessage_error_atomicity queueStateA true none false "m2" 1).2.1 rfl rfl, ?_⟩
  exact ((uploadMessage_error_atomicity queueStateA true (some "B") true "m2" 1).2.2).mp
    (by decide)

/-- C10: an upload request that omits the sender identifier enqueues the
message with recorded senderId the literal "anonymous" (both on the
message and in the userMessages index), and the claim-time self-pairing
check for that message therefore compares "anonymous" against the
joining viewer's connection id. -/
theorem uploadMessage_anonymous_default (st : ServerState) (messageId : String)
    (now : Int) :
    ((uploadMessage st true none true messageId now).1.messageQueue
        = st.messageQueue ++
          [{ id := messageId, fileName := "messages/" ++ messageId ++ ".wav",
             timestamp := now, senderId := "anonymous" }]) ∧
    mapGet (uploadMessage st true none true messageId now).1.userMessages messageId
        = some "anonymous" ∧
    (∀ viewerId : String,
        claimEligible (uploadMessage st true none true messageId now).1.userMessages
            viewerId
            { id := messageId, fileName := "messages/" ++ messageId ++ ".wav",
              timestamp := now, senderId := "anonymous" }
          = decide ("anonymous" ≠ viewerId)) := by
  refine ⟨rfl, ?_, ?_⟩
  · exact mapGet_mapSet_self st.userMessages messageId "anonymous"
  · intro viewerId
    show decide (mapGet (mapSet st.userMessages messageId "anonymous") messageId
        ≠ some viewerId) = decide ("anonymous" ≠ viewerId)
    rw [mapGet_mapSet_self]
    simp
